import Mathlib

/-!
Verification of the report-aggregation pipeline of the Burj Nawas site-coordinator bot.

The Python sources (src/weather.py, src/openproject.py, src/ai_engine.py,
src/main.py, src/models.py) are shallowly embedded below:

* Python `str` values are Lean `String`s; `str.lower`, `str.strip`, the `in`
  substring test and string ordering are re-implemented over `List Char`
  (Lean's built-in `String.toLower`/`String.trim`/`<` do not reduce in the
  kernel, so faithful executable models are defined here instead).
* Python floats appearing in the weather payloads are modelled as exact
  fractions (`PyNum`, an integer numerator/denominator pair); the claims
  under verification only involve comparisons and formatting at values far
  from representability boundaries, so exact arithmetic is a faithful model.
* `async` remote calls are modelled as functions from the attempt number to
  an outcome (`FetchOutcome`): a successful payload or a raised exception of
  the transient class (`aiohttp.ClientError`) or of any other class.
* The `tenacity` retry decorator `@retry(retry=retry_if_exception_type(ClientError),
  stop=stop_after_attempt(3), wait=wait_exponential(multiplier=1, min=2, max=10))`
  is modelled by `retryPolicy`, which records the result, the number of
  attempts made, and the list of inter-attempt delays.
* The SQLAlchemy-backed stores are modelled as association lists; the
  `unique=True` column constraint on `PhotoMetadata.file_unique_id` is
  modelled by the insert failing (raising, caught by the handler) when the
  id is already present.
-/

/-! ## Python string primitives -/

/-- Model of Python code-point string comparison (`str < str`), used by
`list.sort`, over the character lists of two strings. -/
def lexLt : List Char → List Char → Bool
  | [], [] => false
  | [], _ :: _ => true
  | _ :: _, [] => false
  | a :: as, b :: bs => a.toNat < b.toNat || (a.toNat = b.toNat && lexLt as bs)

/-- Helper for the substring test: does `hay` start with `needle`? -/
def startsWithChars : List Char → List Char → Bool
  | [], _ => true
  | _ :: _, [] => false
  | a :: as, b :: bs => a = b && startsWithChars as bs

/-- Model of Python's `needle in hay` substring test. -/
def containsSub (needle : List Char) (hay : List Char) : Bool :=
  startsWithChars needle hay ||
    match hay with
    | [] => false
    | _ :: t => containsSub needle t

/-- Model of Python `str.lower()` (ASCII case folding, which is all the
status strings under verification use). -/
def pyLower (s : String) : String := String.mk (s.data.map Char.toLower)

/-- Model of Python `str.upper()`. -/
def pyUpper (s : String) : String := String.mk (s.data.map Char.toUpper)

/-- Model of Python `str.strip()`: drop whitespace from both ends. -/
def pyStrip (s : String) : String :=
  String.mk (((s.data.dropWhile Char.isWhitespace).reverse.dropWhile
    Char.isWhitespace).reverse)

/-! ## Python float model (exact fractions) -/

/-- Exact-fraction model of the Python floats flowing through the weather
payloads.  `den` is kept positive by every constructor used below. -/
structure PyNum where
  num : Int
  den : Int
deriving DecidableEq, Repr

/-- Embed an integer literal. -/
def PyNum.ofInt (n : Int) : PyNum := ⟨n, 1⟩

/-- Multiplication of two fractions (`wind_speed * 3.6`, `pop * 100`). -/
def PyNum.mul (a b : PyNum) : PyNum := ⟨a.num * b.num, a.den * b.den⟩

/-- Comparison `a > n` against an integer threshold (`> 30`, `> 50`). -/
def PyNum.gtInt (a : PyNum) (n : Int) : Bool := a.num > n * a.den

/-- Round `a * scale` to the nearest integer, ties to even: the rounding
Python's `format` applies for `:.1f` / `:.0f`. -/
def PyNum.roundHalfEvenScaled (a : PyNum) (scale : Int) : Int :=
  let n := a.num * scale
  let d := a.den
  let f := Int.ediv n d
  let r2 := 2 * (n - f * d)
  if r2 < d then f else if r2 > d then f + 1 else if f % 2 = 0 then f else f + 1

/-- Model of the Python format specifier `:.1f` (one decimal place). -/
def fmt1 (a : PyNum) : String :=
  let t := a.roundHalfEvenScaled 10
  toString (t / 10) ++ "." ++ toString (Int.natAbs (t % 10))

/-- Model of the Python format specifier `:.0f` (no decimal places). -/
def fmt0 (a : PyNum) : String :=
  toString (a.roundHalfEvenScaled 1)

/-! ## Remote calls and the tenacity retry policy (weather.py / openproject.py) -/

/-- Exceptions of the Python code, split by the class the retry predicate
`retry_if_exception_type(aiohttp.ClientError)` tests, plus the
`tenacity.RetryError` raised when attempts are exhausted. -/
inductive PyErr where
  | clientError (msg : String)
  | otherError (msg : String)
  | retryError (last : PyErr)
deriving DecidableEq, Repr

/-- The retry predicate: `retry_if_exception_type(aiohttp.ClientError)`. -/
def PyErr.isClientErr : PyErr → Bool
  | .clientError _ => true
  | _ => false

/-- What one attempt of a wrapped remote call does: return a payload, raise a
transient `aiohttp.ClientError`, or raise some other exception. -/
inductive FetchOutcome (α : Type) where
  | ok (payload : α)
  | raiseClient (msg : String)
  | raiseOther (msg : String)

/-- Result of running a retry-decorated call: the final result, the number of
attempts actually made, and the inter-attempt delays. -/
structure RetryTrace (α : Type) where
  result : Except PyErr α
  attempts : Nat
  delays : List Nat
deriving Repr

/-- `tenacity.wait_exponential(multiplier, min, max)` evaluated after the
failed attempt numbered `attempt`:
`max(max(0, min), min(multiplier * 2 ** attempt, max))`. -/
def waitExponential (multiplier mn mx attempt : Nat) : Nat :=
  max (max 0 mn) (min (multiplier * 2 ^ attempt) mx)

/-- The tenacity retry loop.  `fuel` is the number of retries still allowed
before `stop_after_attempt` fires; when an attempt raises a retryable
exception with no fuel left, tenacity raises `RetryError` wrapping the last
exception (the decorators in this repository do not pass `reraise=True`).
Non-retryable exceptions propagate immediately. -/
def tenacityLoop (body : Nat → Except PyErr α) : Nat → Nat → RetryTrace α
  | attempt, 0 =>
    match body attempt with
    | .ok a => ⟨.ok a, attempt, []⟩
    | .error e =>
      if e.isClientErr then ⟨.error (.retryError e), attempt, []⟩
      else ⟨.error e, attempt, []⟩
  | attempt, fuel + 1 =>
    match body attempt with
    | .ok a => ⟨.ok a, attempt, []⟩
    | .error e =>
      if e.isClientErr then
        let rest := tenacityLoop body (attempt + 1) fuel
        ⟨rest.result, rest.attempts, waitExponential 1 2 10 attempt :: rest.delays⟩
      else ⟨.error e, attempt, []⟩

/-- The retry policy shared by `WeatherClient` and `OpenProjectClient`:
`stop_after_attempt(3)` means attempt 1 plus at most 2 retries. -/
def retryPolicy (body : Nat → Except PyErr α) : RetryTrace α :=
  tenacityLoop body 1 2

/-! ## weather.py -/

/-- One entry of the `weather` array of the current-conditions payload. -/
structure WCondition where
  condId : Option Int
  icon : Option String
  description : String
  icon_url : String
deriving DecidableEq, Repr

/-- The current-conditions payload: the `weather` array and `wind.speed`
(absent `wind` or `speed` keys are modelled by `none`, defaulted to 0 at the
use site exactly as `data.get('wind', {}).get('speed', 0)` does). -/
structure WeatherData where
  weather : List WCondition
  windSpeed : Option PyNum
deriving DecidableEq, Repr

/-- One forecast interval: its probability of precipitation `pop`. -/
structure ForecastItem where
  pop : Option PyNum
deriving DecidableEq, Repr

/-- The forecast payload: its `list` of intervals. -/
structure ForecastData where
  list : List ForecastItem
deriving DecidableEq, Repr

/-- `WeatherClient.get_arabic_description`: maps an OpenWeatherMap condition
code to a description string (string literals copied byte-for-byte from the
source file). -/
def get_arabic_description (weather_id : Int) : String :=
  if 200 ≤ weather_id ∧ weather_id < 300 then "Ø¹Ø§ØµÙØ© Ø±Ø¹Ø¯ÙŠØ©"
  else if 300 ≤ weather_id ∧ weather_id < 400 then "Ø±Ø°Ø§Ø°"
  else if 500 ≤ weather_id ∧ weather_id < 600 then "Ù…Ø·Ø±"
  else if 600 ≤ weather_id ∧ weather_id < 700 then "Ø«Ù„ÙˆØ¬"
  else if 700 ≤ weather_id ∧ weather_id < 800 then "Ø¶Ø¨Ø§Ø¨"
  else if weather_id = 800 then "ØµØ§ÙÙŠ"
  else if 801 ≤ weather_id ∧ weather_id < 900 then "ØºØ§Ø¦Ù… Ø¬Ø²Ø¦ÙŠØ§Ù‹"
  else "ØºÙŠØ± Ù…Ø¹Ø±ÙˆÙ"

/-- `WeatherClient.get_icon_url`. -/
def get_icon_url (icon_code : String) : String :=
  "http://openweathermap.org/img/wn/" ++ icon_code ++ "@2x.png"

/-- The enrichment `get_current_weather` performs on a successful payload:
if the `weather` array is non-empty, overwrite the first condition's
`description` and `icon_url` (`condition.get('id', 800)`,
`condition.get('icon', '01d')`). -/
def enrichWeather (d : WeatherData) : WeatherData :=
  match d.weather with
  | [] => d
  | c :: rest =>
    { d with weather :=
        { c with description := get_arabic_description (c.condId.getD 800),
                 icon_url := get_icon_url (c.icon.getD "01d") } :: rest }

/-- One attempt of the *body* of `get_current_weather`: the whole body sits
inside `try: ... except Exception: return None`, so every exception —
including the transient class the retry decorator is watching for — is
caught inside the wrapped call and converted to a `None` return. -/
def weatherAttemptBody (b : FetchOutcome WeatherData) :
    Except PyErr (Option WeatherData) :=
  match b with
  | .ok d => .ok (some (enrichWeather d))
  | .raiseClient _ => .ok none
  | .raiseOther _ => .ok none

/-- `WeatherClient.get_current_weather` under the retry decorator, as a
function of the per-attempt behaviour of the HTTP fetch. -/
def get_current_weather (b : Nat → FetchOutcome WeatherData) :
    RetryTrace (Option WeatherData) :=
  retryPolicy (fun i => weatherAttemptBody (b i))

/-- One attempt of the body of `get_forecast` (same catch-all structure,
no enrichment). -/
def forecastAttemptBody (b : FetchOutcome ForecastData) :
    Except PyErr (Option ForecastData) :=
  match b with
  | .ok d => .ok (some d)
  | .raiseClient _ => .ok none
  | .raiseOther _ => .ok none

/-- `WeatherClient.get_forecast` under the retry decorator. -/
def get_forecast (b : Nat → FetchOutcome ForecastData) :
    RetryTrace (Option ForecastData) :=
  retryPolicy (fun i => forecastAttemptBody (b i))

/-- The value an awaiting caller observes from a call that returns
`Option` payloads (the weather calls never raise, so the error arm is
unreachable). -/
def RetryTrace.value : RetryTrace (Option α) → Option α
  | ⟨.ok v, _, _⟩ => v
  | ⟨.error _, _, _⟩ => none

/-- The wind-alert message (line 73 of weather.py, f-string holes filled by
concatenation). -/
def windAlertMsg (wind_speed : PyNum) : String :=
  "âš ï¸ **ØªÙ†Ø¨ÙŠÙ‡ Ø±ÙŠØ§Ø­ Ù‚ÙˆÙŠØ© / High Wind Alert**\nØ³Ø±Ø¹Ø© Ø§Ù„Ø±ÙŠØ§Ø­ "
    ++ fmt1 wind_speed
    ++ " ÙƒÙ…/Ø³. ÙŠØ±Ø¬Ù‰ ØªÙˆØ®ÙŠ Ø§Ù„Ø­Ø°Ø± ÙˆØ¥ÙŠÙ‚Ø§Ù Ø§Ù„Ø±Ø§ÙØ¹Ø§Øª.\nWind speed is "
    ++ fmt1 wind_speed
    ++ " km/h. Please exercise caution and stop cranes."

/-- The rain-alert message (line 82 of weather.py). -/
def rainAlertMsg (pop : PyNum) : String :=
  "ğŸŒ§ï¸ **Ø§Ø­ØªÙ…Ø§Ù„ÙŠØ© Ø£Ù…Ø·Ø§Ø± / Rain Forecast**\nØªÙˆØ¬Ø¯ ÙØ±ØµØ© Ù‡Ø·ÙˆÙ„ Ø£Ù…Ø·Ø§Ø± Ø¨Ù†Ø³Ø¨Ø© "
    ++ fmt0 pop
    ++ "% Ø®Ù„Ø§Ù„ Ø§Ù„Ø³Ø§Ø¹Ø§Øª Ø§Ù„Ù‚Ø§Ø¯Ù…Ø©.\nThere is a "
    ++ fmt0 pop
    ++ "% chance of rain in the coming hours."

/-- The wind-alert half of `check_severe_conditions`: the current-weather
fetch and the threshold check run only outside the quiet window
(`if not (22 <= current_hour or current_hour < 6)`); the wind speed is
`current.get('wind', {}).get('speed', 0) * 3.6` (m/s to km/h) and the
alert fires when it exceeds 30. -/
def windAlerts (current_hour : Nat) (bw : Nat → FetchOutcome WeatherData) :
    List String :=
  if ¬ (22 ≤ current_hour ∨ current_hour < 6) then
    match (get_current_weather bw).value with
    | some current =>
      let wind_speed := (current.windSpeed.getD (PyNum.ofInt 0)).mul ⟨36, 10⟩
      if wind_speed.gtInt 30 then [windAlertMsg wind_speed] else []
    | none => []
  else []

/-- The rain-alert scan over the forecast entries handed to it
(`for item in forecast.get('list', [])[:2]`): the first entry whose
`pop * 100` exceeds 50 appends one alert and `break`s. -/
def rainAlerts : List ForecastItem → List String
  | [] => []
  | item :: rest =>
    let pop := (item.pop.getD (PyNum.ofInt 0)).mul (PyNum.ofInt 100)
    if pop.gtInt 50 then [rainAlertMsg pop] else rainAlerts rest

/-- `WeatherClient.check_severe_conditions`, as a function of the local hour
in Asia/Baghdad and the behaviours of the two fetches.  Returns `None` when
no alert fires, otherwise the alerts joined by newlines. -/
def check_severe_conditions (current_hour : Nat)
    (bw : Nat → FetchOutcome WeatherData)
    (bf : Nat → FetchOutcome ForecastData) : Option String :=
  let alerts := windAlerts current_hour bw ++
    match (get_forecast bf).value with
    | some forecast => rainAlerts (forecast.list.take 2)
    | none => []
  if alerts.isEmpty then none else some (String.intercalate "\n" alerts)

/-! ## Python `datetime.strptime(s, "%Y-%m-%d")` model

CPython's `_strptime` compiles the format to the regex
`(?P<Y>\d\d\d\d)-(?P<m>1[0-2]|0[1-9]|[1-9])-(?P<d>3[01]|[12]\d|0[1-9]|[1-9]| [1-9])`
(so one-digit and space-padded month/day fields are accepted), requires the
whole input to be consumed, and then the `datetime` constructor validates the
day against the month length and the year against `MINYEAR = 1`. -/

/-- Numeric value of a decimal digit character. -/
def digitVal (c : Char) : Nat := c.toNat - 48

/-- Match the `%m` field (regex `1[0-2]|0[1-9]|[1-9]`, alternatives tried in
order), returning the month and the unconsumed characters. -/
def parseMonthTok : List Char → Option (Nat × List Char)
  | [] => none
  | '1' :: c :: rest =>
    if '0' ≤ c ∧ c ≤ '2' then some (10 + digitVal c, rest)
    else some (1, c :: rest)
  | '0' :: c :: rest =>
    if '1' ≤ c ∧ c ≤ '9' then some (digitVal c, rest) else none
  | c :: rest =>
    if '1' ≤ c ∧ c ≤ '9' then some (digitVal c, rest) else none

/-- Match the `%d` field (regex `3[01]|[12]\d|0[1-9]|[1-9]| [1-9]`,
alternatives tried in order). -/
def parseDayTok : List Char → Option (Nat × List Char)
  | [] => none
  | [c] => if '1' ≤ c ∧ c ≤ '9' then some (digitVal c, []) else none
  | '3' :: c :: rest =>
    if c = '0' ∨ c = '1' then some (30 + digitVal c, rest)
    else some (3, c :: rest)
  | c :: c2 :: rest =>
    if (c = '1' ∨ c = '2') ∧ c2.isDigit then
      some (digitVal c * 10 + digitVal c2, rest)
    else if c = '0' ∧ ('1' ≤ c2 ∧ c2 ≤ '9') then some (digitVal c2, rest)
    else if '1' ≤ c ∧ c ≤ '9' then some (digitVal c, c2 :: rest)
    else if c = ' ' ∧ ('1' ≤ c2 ∧ c2 ≤ '9') then some (digitVal c2, rest)
    else none

/-- Gregorian leap-year rule used by `datetime`. -/
def isLeap (y : Nat) : Bool := (y % 4 = 0 ∧ y % 100 ≠ 0) ∨ y % 400 = 0

/-- Days in a month, as validated by the `datetime` constructor. -/
def daysInMonth (y m : Nat) : Nat :=
  if m = 2 then (if isLeap y then 29 else 28)
  else if m = 4 ∨ m = 6 ∨ m = 9 ∨ m = 11 then 30
  else 31

/-- `datetime.strptime(s, "%Y-%m-%d").date()`: `some (y, m, d)` on success,
`none` when Python raises `ValueError`. -/
def strptimeYmd (s : String) : Option (Nat × Nat × Nat) :=
  match s.data with
  | y1 :: y2 :: y3 :: y4 :: '-' :: rest =>
    if y1.isDigit ∧ y2.isDigit ∧ y3.isDigit ∧ y4.isDigit then
      let y := ((digitVal y1 * 10 + digitVal y2) * 10 + digitVal y3) * 10
        + digitVal y4
      match parseMonthTok rest with
      | some (m, '-' :: rest2) =>
        match parseDayTok rest2 with
        | some (d, []) =>
          if 1 ≤ y ∧ 1 ≤ d ∧ d ≤ daysInMonth y m then some (y, m, d) else none
        | _ => none
      | _ => none
    else none
  | _ => none

/-! ## openproject.py -/

/-- The fields `get_summary` reads off one raw work-package JSON object:
`id`, `subject`, `_links.status.title`, `startDate`, `dueDate`.  A `none`
models an absent key (`pkg.get(...)` then yields its default). -/
structure RawPackage where
  pkgId : Option Int
  subject : Option String
  statusTitle : Option String
  startDate : Option String
  dueDate : Option String
deriving DecidableEq, Repr

/-- The per-item dict `get_summary` builds (`id`, `subject`, `status`,
`dueDate`, `startDate` — the date fields keep the raw strings). -/
structure SummaryItem where
  pkgId : Option Int
  subject : Option String
  status : String
  dueDate : Option String
  startDate : Option String
deriving DecidableEq, Repr

/-- `start_date = datetime.strptime(s, "%Y-%m-%d").date() if s else None`:
`none` models the `ValueError` that aborts the item; `some none` models a
missing (or empty, hence falsy) date string; `some (some d)` a parsed date. -/
def parseOptDate : Option String → Option (Option (Nat × Nat × Nat))
  | none => some none
  | some s =>
    if s = "" then some none
    else
      match strptimeYmd s with
      | some d => some (some d)
      | none => none

/-- What the per-item `try` block of `get_summary` does to one package. -/
inductive ItemOutcome where
  | skipped
  | active (item : SummaryItem)
  | incoming (item : SummaryItem)
  | neither
deriving DecidableEq, Repr

/-- The body of the per-item `try` block: compute the status, parse both
dates (a `ValueError` skips the item with a warning), build the item dict,
then classify — `"in progress" in status_lower` is active, otherwise a
status outside the closed list that has a (parsed, truthy) start date is
incoming. -/
def processPackage (pkg : RawPackage) : ItemOutcome :=
  let status := pyStrip (pkg.statusTitle.getD "")
  let status_lower := pyLower status
  match parseOptDate pkg.startDate, parseOptDate pkg.dueDate with
  | some start_date, some _ =>
    let item : SummaryItem :=
      ⟨pkg.pkgId, pkg.subject, status, pkg.dueDate, pkg.startDate⟩
    if containsSub ("in progress").data status_lower.data then .active item
    else if !(["closed", "rejected", "completed", "on hold"].contains
        status_lower) then
      if start_date.isSome then .incoming item else .neither
    else .neither
  | _, _ => .skipped

/-- The summary dict `{'active': [...], 'incoming': [...]}`. -/
structure ProjectSummary where
  active : List SummaryItem
  incoming : List SummaryItem
deriving DecidableEq, Repr

/-- The sort key `lambda x: x["startDate"] or "9999-12-31"` (Python `or`:
`None` and the empty string both fall back to the sentinel). -/
def summarySortKey (item : SummaryItem) : List Char :=
  match item.startDate with
  | none => ("9999-12-31").data
  | some s => if s = "" then ("9999-12-31").data else s.data

/-- Stable insertion used to model Python's stable ascending
`list.sort(key=...)`: a new element goes after every element whose key is
not greater. -/
def insertByKey (x : SummaryItem) : List SummaryItem → List SummaryItem
  | [] => [x]
  | y :: ys =>
    if lexLt (summarySortKey x) (summarySortKey y) then x :: y :: ys
    else y :: insertByKey x ys

/-- `summary["incoming"].sort(key=lambda x: x["startDate"] or "9999-12-31")`:
stable ascending sort by the raw date *string*. -/
def pySortByStartDate (l : List SummaryItem) : List SummaryItem :=
  l.foldl (fun acc x => insertByKey x acc) []

/-- The classification loop of `get_summary` over the fetched packages. -/
def collectSummary (packages : List RawPackage) : ProjectSummary :=
  packages.foldl
    (fun acc pkg =>
      match processPackage pkg with
      | .active item => ⟨acc.active ++ [item], acc.incoming⟩
      | .incoming item => ⟨acc.active, acc.incoming ++ [item]⟩
      | _ => acc)
    ⟨[], []⟩

/-- One attempt of the body of `get_work_packages`: unlike the weather
client, its `except` clause re-raises (`raise e`), so the retry decorator
does see the exceptions. -/
def workPackagesAttemptBody (b : FetchOutcome (List RawPackage)) :
    Except PyErr (List RawPackage) :=
  match b with
  | .ok pkgs => .ok pkgs
  | .raiseClient m => .error (.clientError m)
  | .raiseOther m => .error (.otherError m)

/-- `OpenProjectClient.get_work_packages` under the retry decorator. -/
def get_work_packages (b : Nat → FetchOutcome (List RawPackage)) :
    RetryTrace (List RawPackage) :=
  retryPolicy (fun i => workPackagesAttemptBody (b i))

/-- `OpenProjectClient.get_summary`: fall back to the empty summary when the
fetch (after retries) raises; otherwise classify every package and sort the
incoming bucket. -/
def get_summary (b : Nat → FetchOutcome (List RawPackage)) : ProjectSummary :=
  match (get_work_packages b).result with
  | .error _ => ⟨[], []⟩
  | .ok packages =>
    let s := collectSummary packages
    ⟨s.active, pySortByStartDate s.incoming⟩

/-! ## ai_engine.py -/

/-- Outcome of the underlying Dashscope `MultiModalConversation.call`: an OK
response carrying the generated text, a non-OK status code with a message,
or a raised exception. -/
inductive QwenOutcome where
  | ok (text : String)
  | apiError (msg : String)
  | exn
deriving DecidableEq, Repr

/-- `AIEngine.analyze_site_data` never raises: a non-OK status returns an
error string carrying the response message, and any exception is caught and
mapped to a fixed error string (both strings copied from ai_engine.py). -/
def analyze_site_data (response : QwenOutcome) : String :=
  match response with
  | .ok text => text
  | .apiError msg => "عذراً، حدث خطأ في النظام: " ++ msg
  | .exn => "عذراً، حدث خطأ أثناء تحليل البيانات."

/-! ## models.py / main.py -/

/-- A `PhotoMetadata` row (models.py): `file_unique_id` carries a
`unique=True` column constraint. -/
structure PhotoRow where
  file_unique_id : String
  file_path : String
  analysis : String
  caption : String
  date_str : String
deriving DecidableEq, Repr

/-- A `ChatLog` row, as far as `handle_photo` writes one. -/
structure ChatLogRow where
  user_id : String
  username : String
  message : String
deriving DecidableEq, Repr

/-- Committing a new `PhotoMetadata` row: the `unique=True` constraint on
`file_unique_id` makes the insert raise an `IntegrityError` — which
`handle_photo` catches and logs — when a row with that id already exists,
leaving the store unchanged. -/
def insertPhotoMeta (store : List PhotoRow) (p : PhotoRow) : List PhotoRow :=
  if store.any (fun r => r.file_unique_id = p.file_unique_id) then store
  else store ++ [p]

/-- The photo-ingestion event handed to `handle_photo`. -/
structure IngestEvent where
  user_id : String
  username : String
  file_unique_id : String
  file_path : String
  caption : Option String
  date_str : String
deriving DecidableEq, Repr

/-- `handle_photo` (main.py): log the caption as a chat entry when present,
then insert a `PhotoMetadata` row with empty analysis; a failing insert is
caught and logged, and the user-visible reply is the same either way. -/
def handle_photo (store : List PhotoRow) (chat : List ChatLogRow)
    (ev : IngestEvent) : List PhotoRow × List ChatLogRow × String :=
  let chat' :=
    match ev.caption with
    | some c =>
      chat ++ [⟨ev.user_id, ev.username, "[PHOTO CAPTION]: " ++ c⟩]
    | none => chat
  let photo_entry : PhotoRow :=
    ⟨ev.file_unique_id, ev.file_path, "", ev.caption.getD "", ev.date_str⟩
  (insertPhotoMeta store photo_entry, chat', "📸 Photo saved.")

/-- A sequence of `handle_photo` calls starting from given stores. -/
def runIngest (store : List PhotoRow) (chat : List ChatLogRow)
    (events : List IngestEvent) : List PhotoRow × List ChatLogRow :=
  events.foldl (fun acc ev =>
    let r := handle_photo acc.1 acc.2 ev
    (r.1, r.2.1)) (store, chat)

/-- Number of stored `PhotoMetadata` rows carrying a given unique id. -/
def countId (store : List PhotoRow) (uid : String) : Nat :=
  (store.filter (fun r => r.file_unique_id = uid)).length

/-- The lazy-analysis step of `generate_daily_report` for one photo row:
`if not p.analysis` (empty string is falsy) invoke
`ai_engine.analyze_site_data` — which always returns a string — assign it to
the row and commit.  Returns the updated row and how many times the
generative collaborator was invoked. -/
def lazyAnalyzePhoto (response : QwenOutcome) (p : PhotoRow) :
    PhotoRow × Nat :=
  if p.analysis = "" then
    ({ p with analysis := analyze_site_data response }, 1)
  else (p, 0)

/-- The same photo row flowing through a sequence of report runs, the run
numbered `i` seeing collaborator behaviour `responses[i]`; counts the total
number of collaborator invocations. -/
def lazyAnalyzeRuns (responses : List QwenOutcome) (p : PhotoRow) :
    PhotoRow × Nat :=
  responses.foldl
    (fun acc response =>
      let r := lazyAnalyzePhoto response acc.1
      (r.1, acc.2 + r.2))
    (p, 0)

/-- English month abbreviations, `datetime.strftime("%b")` under the C
locale. -/
def monthAbbrev : Nat → String
  | 1 => "Jan" | 2 => "Feb" | 3 => "Mar" | 4 => "Apr"
  | 5 => "May" | 6 => "Jun" | 7 => "Jul" | 8 => "Aug"
  | 9 => "Sep" | 10 => "Oct" | 11 => "Nov" | 12 => "Dec"
  | _ => ""

/-- The Python format specifier `:03d` on a non-negative count. -/
def pad3 (n : Nat) : String :=
  let s := toString n
  if s.length < 3 then String.mk (List.replicate (3 - s.length) '0') ++ s
  else s

/-- The wall-clock facts `generate_report_id` reads from `datetime.now()`:
the month number (for `%b`), the two-digit year string `%y`, the month key
`%Y-%m`, and the integer Unix timestamp used by the fallback id. -/
structure NowInfo where
  month : Nat
  yearStr : String
  monthKey : String
  timestamp : Int
deriving DecidableEq, Repr

/-- The `ReportCounter` table: one `(month_key, count)` row per month key. -/
def upsertCounter (db : List (String × Nat)) (key : String) (v : Nat) :
    List (String × Nat) :=
  if db.any (fun row => row.1 = key) then
    db.map (fun row => if row.1 = key then (row.1, v) else row)
  else db ++ [(key, v)]

/-- `generate_report_id` (main.py): select the counter row for the month key
(creating it at 0), increment, commit, and format
`BN-{month}-{year}-{count:03d}`; any database error is caught and the
fallback `BN-ERR-{unix timestamp}` is returned instead.  `dbOk` models
whether the database session raises.  Returns the id and the resulting
counter table. -/
def generate_report_id (now : NowInfo) (db : List (String × Nat))
    (dbOk : Bool) : String × List (String × Nat) :=
  if dbOk then
    let current := ((db.find? (fun row => row.1 = now.monthKey)).map
      Prod.snd).getD 0
    let newCount := current + 1
    ("BN-" ++ pyUpper (monthAbbrev now.month) ++ "-" ++ now.yearStr ++ "-"
        ++ pad3 newCount,
      upsertCounter db now.monthKey newCount)
  else
    ("BN-ERR-" ++ toString now.timestamp, db)

/-- The `weather` sub-dict of the report data
(`{"current": weather_current, "forecast": []}`). -/
structure WeatherSection where
  current : Option WeatherData
  forecast : List ForecastItem
deriving DecidableEq, Repr

/-- One photo view-model of the report data. -/
structure PhotoView where
  file_path : String
  analysis : String
  timestamp : String
  caption : String
deriving DecidableEq, Repr

/-- The canonical report document `generate_daily_report` assembles and
hands to `pdf_generator.generate_report` (main.py lines 259-271). -/
structure ReportData where
  date : String
  report_id : String
  weather : WeatherSection
  projects : ProjectSummary
  site_manpower_machinery : String
  site_activities : String
  analysis : String
  photos : List PhotoView
deriving DecidableEq, Repr

/-- The assembly step of `generate_daily_report`: the `data` dict literal.
`site_summary_data` is the JSON object `summarize_logs` returned, read with
`.get(key, '')`, modelled as an association list. -/
def buildReportData (date_str report_id : String)
    (weather_current : Option WeatherData) (projects_summary : ProjectSummary)
    (site_summary_data : List (String × String)) (analysis_overall : String)
    (photos_data : List PhotoView) : ReportData :=
  { date := date_str
    report_id := report_id
    weather := ⟨weather_current, []⟩
    projects := projects_summary
    site_manpower_machinery :=
      ((site_summary_data.find? (fun kv => kv.1 = "site_manpower_machinery")).map
        Prod.snd).getD ""
    site_activities :=
      ((site_summary_data.find? (fun kv => kv.1 = "site_activities")).map
        Prod.snd).getD ""
    analysis := analysis_overall
    photos := photos_data }

/-! ## Spec-side comparison definitions

These two definitions follow the words of the specification/claims (not the
source) and exist only to be compared against the behaviour of the embedded
code. -/

/-- The twelve uppercase month abbreviations. -/
def monthAbbrevsUpper : List String :=
  ["JAN", "FEB", "MAR", "APR", "MAY", "JUN",
   "JUL", "AUG", "SEP", "OCT", "NOV", "DEC"]

/-- Claim C10's words for the success format: exactly
`BN-<uppercase month abbreviation>-<two digits>-<three digits>`. -/
def specReportIdFormat (s : String) : Bool :=
  decide (s.data.length = 13) &&
  startsWithChars ("BN-").data s.data &&
  monthAbbrevsUpper.contains (String.mk ((s.data.drop 3).take 3)) &&
  decide ((s.data.drop 6).take 1 = ['-']) &&
  ((s.data.drop 7).take 2).all Char.isDigit &&
  decide ((s.data.drop 9).take 1 = ['-']) &&
  ((s.data.drop 10).take 3).all Char.isDigit

/-- Claim C9's words for "sorted ascending by start date": consecutive
incoming items must be in chronological order of their parsed start dates,
items lacking a parsable date last. -/
def specDateLeKey (a b : SummaryItem) : Bool :=
  match (a.startDate.bind strptimeYmd), (b.startDate.bind strptimeYmd) with
  | some da, some db =>
    da.1 < db.1 || (da.1 = db.1 &&
      (da.2.1 < db.2.1 || (da.2.1 = db.2.1 && da.2.2 ≤ db.2.2)))
  | some _, none => true
  | none, some _ => false
  | none, none => true

/-- Claim C9's words applied to a whole bucket. -/
def specSortedByDate : List SummaryItem → Bool
  | [] => true
  | [_] => true
  | a :: b :: rest => specDateLeKey a b && specSortedByDate (b :: rest)

/-! ## Helper lemmas -/

/-- A populated analysis field makes every later run leave the row and the
invocation count untouched, whatever the collaborator would have done. -/
theorem lazyAnalyzeRuns_noop_aux (p : PhotoRow) (h : ¬ p.analysis = "") :
    ∀ (rs : List QwenOutcome) (n : Nat),
      rs.foldl
        (fun acc response =>
          let r := lazyAnalyzePhoto response acc.1
          (r.1, acc.2 + r.2))
        (p, n) = (p, n) := by
  intro rs
  induction rs with
  | nil => intro n; rfl
  | cons r rest ih =>
    intro n
    simp only [List.foldl_cons, lazyAnalyzePhoto, if_neg h]
    exact ih n

/-- The weather body never lets an exception reach the retry decorator. -/
theorem weatherAttemptBody_ok (b : FetchOutcome WeatherData) :
    ∃ v, weatherAttemptBody b = .ok v := by
  cases b <;> exact ⟨_, rfl⟩

/-- The retry loop makes at most `attempt + fuel` numbered attempts. -/
theorem tenacityLoop_attempts_le (body : Nat → Except PyErr α) :
    ∀ (fuel attempt : Nat),
      (tenacityLoop body attempt fuel).attempts ≤ attempt + fuel := by
  intro fuel
  induction fuel with
  | zero =>
    intro attempt
    unfold tenacityLoop
    cases body attempt with
    | ok a => simp
    | error e => by_cases h : e.isClientErr <;> simp [h]
  | succ fuel ih =>
    intro attempt
    unfold tenacityLoop
    cases body attempt with
    | ok a => simp
    | error e =>
      by_cases h : e.isClientErr <;> simp [h]
      calc (tenacityLoop body (attempt + 1) fuel).attempts
          ≤ (attempt + 1) + fuel := ih (attempt + 1)
        _ ≤ attempt + (fuel + 1) := by omega

/-! ## C7 — wind alert threshold and quiet window -/

/-- C7: `check_severe_conditions` produces a wind alert exactly when the
current wind speed converted from m/s to km/h exceeds 30 and the local hour
is outside the quiet window (hour ≥ 22 or < 6 suppresses the check); with a
display-unit speed of 40 (source speed 100/9 m/s) the whole check returns
null at local hour 23 and a non-null alert containing "40" at local hour 14. -/
theorem c7_wind_alert :
    (∀ (current_hour : Nat) (bw : Nat → FetchOutcome WeatherData),
      (22 ≤ current_hour ∨ current_hour < 6) → windAlerts current_hour bw = [])
    ∧ (∀ (current_hour : Nat) (bw : Nat → FetchOutcome WeatherData)
        (current : WeatherData),
        ¬ (22 ≤ current_hour ∨ current_hour < 6) →
        (get_current_weather bw).value = some current →
        (windAlerts current_hour bw ≠ [] ↔
          ((current.windSpeed.getD (PyNum.ofInt 0)).mul ⟨36, 10⟩).gtInt 30 =
            true))
    ∧ check_severe_conditions 23 (fun _ => .ok ⟨[], some ⟨100, 9⟩⟩)
        (fun _ => .raiseOther "api down") = none
    ∧ check_severe_conditions 14 (fun _ => .ok ⟨[], some ⟨100, 9⟩⟩)
        (fun _ => .raiseOther "api down") = some (windAlertMsg ⟨3600, 90⟩)
    ∧ containsSub ("40").data (windAlertMsg ⟨3600, 90⟩).data = true := by
  refine ⟨?_, ?_, ?_, ?_, ?_⟩
  · intro current_hour bw hq
    simp only [windAlerts, if_neg (not_not_intro hq)]
  · intro current_hour bw current hq hv
    simp only [windAlerts, if_pos hq, hv]
    by_cases hg :
        ((current.windSpeed.getD (PyNum.ofInt 0)).mul ⟨36, 10⟩).gtInt 30 = true
    · simp [hg]
    · rw [Bool.not_eq_true] at hg
      simp [hg]
  · rfl
  · rfl
  · decide

/-- C7 witness: the theorem's quantified parts applied at hour 23 (quiet
window, alert suppressed) and hour 14 with display-unit wind speed 40. -/
theorem c7_wind_alert_witness :
    windAlerts 23 (fun _ => FetchOutcome.ok ⟨[], some ⟨100, 9⟩⟩) = [] ∧
    (windAlerts 14 (fun _ => FetchOutcome.ok ⟨[], some ⟨100, 9⟩⟩) ≠ [] ↔
      ((((⟨[], some ⟨100, 9⟩⟩ : WeatherData).windSpeed.getD
        (PyNum.ofInt 0)).mul ⟨36, 10⟩).gtInt 30 = true)) :=
  ⟨c7_wind_alert.1 23 _ (by decide),
   c7_wind_alert.2.1 14 _ _ (by decide) rfl⟩

/-! ## C8 — rain alert, first match wins -/

/-- C8: a rain alert fires exactly on the first of the next two forecast
intervals whose probability of precipitation exceeds 50% (first match wins,
at most one rain alert); the forecast `[{pop: 0.2}, {pop: 0.9}]` yields
exactly the one alert referencing 90%; the function returns null when no
condition is met and the newline-join of all alerts otherwise. -/
theorem c8_rain_alert :
    (∀ items : List ForecastItem, (rainAlerts items).length ≤ 1)
    ∧ (∀ (it1 it2 : ForecastItem) (rest : List ForecastItem),
        ((it1.pop.getD (PyNum.ofInt 0)).mul (PyNum.ofInt 100)).gtInt 50 =
          false →
        ((it2.pop.getD (PyNum.ofInt 0)).mul (PyNum.ofInt 100)).gtInt 50 =
          true →
        rainAlerts (it1 :: it2 :: rest) =
          [rainAlertMsg ((it2.pop.getD (PyNum.ofInt 0)).mul (PyNum.ofInt 100))])
    ∧ check_severe_conditions 23 (fun _ => .raiseOther "api down")
        (fun _ => .ok ⟨[⟨some ⟨2, 10⟩⟩, ⟨some ⟨9, 10⟩⟩]⟩) =
        some (rainAlertMsg ⟨900, 10⟩)
    ∧ containsSub ("90").data (rainAlertMsg ⟨900, 10⟩).data = true
    ∧ check_severe_conditions 23 (fun _ => .raiseOther "api down")
        (fun _ => .ok ⟨[⟨some ⟨2, 10⟩⟩, ⟨some ⟨3, 10⟩⟩]⟩) = none
    ∧ check_severe_conditions 14 (fun _ => .ok ⟨[], some ⟨100, 9⟩⟩)
        (fun _ => .ok ⟨[⟨some ⟨9, 10⟩⟩]⟩) =
        some (windAlertMsg ⟨3600, 90⟩ ++ "\n" ++ rainAlertMsg ⟨900, 10⟩) := by
  refine ⟨?_, ?_, ?_, ?_, ?_, ?_⟩
  · intro items
    induction items with
    | nil => simp [rainAlerts]
    | cons item rest ih =>
      simp only [rainAlerts]
      by_cases hg :
          ((item.pop.getD (PyNum.ofInt 0)).mul (PyNum.ofInt 100)).gtInt 50 =
            true
      · simp [hg]
      · rw [Bool.not_eq_true] at hg
        simpa [hg] using ih
  · intro it1 it2 rest h1 h2
    simp only [rainAlerts, h1, h2]
    rfl
  · rfl
  · decide
  · rfl
  · rfl

/-- C8 witness: the theorem's quantified parts applied at the forecast
`[{pop: 0.2}, {pop: 0.9}]`. -/
theorem c8_rain_alert_witness :
    (rainAlerts [⟨some ⟨2, 10⟩⟩, ⟨some ⟨9, 10⟩⟩]).length ≤ 1 ∧
    rainAlerts [⟨some ⟨2, 10⟩⟩, ⟨some ⟨9, 10⟩⟩] =
      [rainAlertMsg (((⟨some ⟨9, 10⟩⟩ : ForecastItem).pop.getD
        (PyNum.ofInt 0)).mul (PyNum.ofInt 100))] :=
  ⟨c8_rain_alert.1 _, c8_rain_alert.2.1 ⟨some ⟨2, 10⟩⟩ ⟨some ⟨9, 10⟩⟩ []
    (by decide) (by decide)⟩

/-! ## C5 — weather failure degrades to a null field, never aborts -/

/-- C5: when the weather collaborator fails (its first attempt raises — in
particular when it always errors), `get_current_weather` returns `None`
instead of raising, and the report-assembly step still produces a canonical
report document whose weather field is `{current: None, forecast: []}`,
with every other field present and equal to its input. -/
theorem c5_weather_degradation (bw : Nat → FetchOutcome WeatherData)
    (hfail : ∀ d, bw 1 ≠ FetchOutcome.ok d) :
    get_current_weather bw = ⟨.ok none, 1, []⟩ ∧
    ∀ (date_str report_id : String) (projects_summary : ProjectSummary)
      (site_summary_data : List (String × String)) (analysis_overall : String)
      (photos_data : List PhotoView),
      (buildReportData date_str report_id ((get_current_weather bw).value)
          projects_summary site_summary_data analysis_overall
          photos_data).weather = ⟨none, []⟩ ∧
      (buildReportData date_str report_id ((get_current_weather bw).value)
          projects_summary site_summary_data analysis_overall
          photos_data).date = date_str ∧
      (buildReportData date_str report_id ((get_current_weather bw).value)
          projects_summary site_summary_data analysis_overall
          photos_data).report_id = report_id ∧
      (buildReportData date_str report_id ((get_current_weather bw).value)
          projects_summary site_summary_data analysis_overall
          photos_data).projects = projects_summary ∧
      (buildReportData date_str report_id ((get_current_weather bw).value)
          projects_summary site_summary_data analysis_overall
          photos_data).analysis = analysis_overall ∧
      (buildReportData date_str report_id ((get_current_weather bw).value)
          projects_summary site_summary_data analysis_overall
          photos_data).photos = photos_data := by
  have htrace : get_current_weather bw = ⟨.ok none, 1, []⟩ := by
    cases hb : bw 1 with
    | ok d => exact absurd hb (hfail d)
    | raiseClient m =>
      simp [get_current_weather, retryPolicy, tenacityLoop, weatherAttemptBody,
        hb]
    | raiseOther m =>
      simp [get_current_weather, retryPolicy, tenacityLoop, weatherAttemptBody,
        hb]
  refine ⟨htrace, ?_⟩
  intro date_str report_id projects_summary site_summary_data analysis_overall
    photos_data
  rw [htrace]
  exact ⟨rfl, rfl, rfl, rfl, rfl, rfl⟩

/-- C5 witness: the theorem applied to an always-erroring weather
collaborator and a concrete assembly. -/
theorem c5_weather_degradation_witness :
    get_current_weather (fun _ => FetchOutcome.raiseOther "api down") =
      ⟨.ok none, 1, []⟩ ∧
    (buildReportData "2026-02-10" "BN-FEB-26-001"
        ((get_current_weather
          (fun _ => FetchOutcome.raiseOther "api down")).value)
        ⟨[], []⟩ [] "text" []).weather = ⟨none, []⟩ :=
  have h := c5_weather_degradation (fun _ => FetchOutcome.raiseOther "api down")
    (fun _ hd => FetchOutcome.noConfusion hd)
  ⟨h.1, (h.2 "2026-02-10" "BN-FEB-26-001" ⟨[], []⟩ [] "text" []).1⟩

/-! ## C3 — the retry policy, and the weather call that defeats it -/

/-- C3 counterexample: the body of `get_current_weather` catches *every*
exception — including the transient `aiohttp.ClientError` class the retry
decorator is configured to retry — and returns `None`, so a weather fetch
whose every attempt raises a transient error makes exactly one attempt, is
never retried, and propagates nothing; the claim's "retried with at most 3
attempts ... the final exception propagates to the caller" is false for the
wrapped weather call. -/
theorem c3_counterexample :
    get_current_weather (fun _ => FetchOutcome.raiseClient "connection reset") =
      ⟨.ok none, 1, []⟩ := rfl

/-- C3 (amended): the project fetch `get_work_packages` re-raises inside its
wrapped body, so for it the policy behaves as claimed: a non-transient
exception propagates immediately without retry; transient errors are retried
with delays 2 then 4 (the `wait_exponential(multiplier=1, min=2, max=10)`
policy, capped at 10) until 3 attempts total are exhausted, after which a
retry-exhaustion error wrapping the final exception propagates; no call ever
makes more than 3 attempts.  The weather fetch `get_current_weather` instead
swallows every exception inside the wrapped body and completes on the first
attempt with a `None` payload. -/
theorem c3_retry_policy_amended :
    (∀ bw : Nat → FetchOutcome WeatherData,
      (get_current_weather bw).attempts = 1 ∧
      ∃ v, (get_current_weather bw).result = .ok v)
    ∧ (∀ (bp : Nat → FetchOutcome (List RawPackage)) (m : String),
        bp 1 = .raiseOther m →
        get_work_packages bp = ⟨.error (.otherError m), 1, []⟩)
    ∧ (∀ (bp : Nat → FetchOutcome (List RawPackage)) (m1 m2 m3 : String),
        bp 1 = .raiseClient m1 → bp 2 = .raiseClient m2 →
        bp 3 = .raiseClient m3 →
        get_work_packages bp =
          ⟨.error (.retryError (.clientError m3)), 3, [2, 4]⟩)
    ∧ (∀ bp : Nat → FetchOutcome (List RawPackage),
        (get_work_packages bp).attempts ≤ 3) := by
  refine ⟨?_, ?_, ?_, ?_⟩
  · intro bw
    cases hb : bw 1 with
    | ok d =>
      constructor
      · simp [get_current_weather, retryPolicy, tenacityLoop,
          weatherAttemptBody, hb]
      · exact ⟨some (enrichWeather d), by
          simp [get_current_weather, retryPolicy, tenacityLoop,
            weatherAttemptBody, hb]⟩
    | raiseClient m =>
      exact ⟨by simp [get_current_weather, retryPolicy, tenacityLoop,
        weatherAttemptBody, hb], ⟨none, by simp [get_current_weather,
          retryPolicy, tenacityLoop, weatherAttemptBody, hb]⟩⟩
    | raiseOther m =>
      exact ⟨by simp [get_current_weather, retryPolicy, tenacityLoop,
        weatherAttemptBody, hb], ⟨none, by simp [get_current_weather,
          retryPolicy, tenacityLoop, weatherAttemptBody, hb]⟩⟩
  · intro bp m h1
    simp [get_work_packages, retryPolicy, tenacityLoop,
      workPackagesAttemptBody, h1, PyErr.isClientErr]
  · intro bp m1 m2 m3 h1 h2 h3
    simp [get_work_packages, retryPolicy, tenacityLoop,
      workPackagesAttemptBody, h1, h2, h3, PyErr.isClientErr, waitExponential]
  · intro bp
    exact tenacityLoop_attempts_le _ 2 1

/-- C3 witness: the amended theorem applied to a project fetch whose first
attempt raises a non-transient error and to one that raises transient errors
on all three attempts. -/
theorem c3_retry_policy_witness :
    get_work_packages (fun _ => FetchOutcome.raiseOther "HTTP 500") =
      ⟨.error (.otherError "HTTP 500"), 1, []⟩ ∧
    get_work_packages (fun _ => FetchOutcome.raiseClient "timeout") =
      ⟨.error (.retryError (.clientError "timeout")), 3, [2, 4]⟩ :=
  ⟨c3_retry_policy_amended.2.1 _ "HTTP 500" rfl,
   c3_retry_policy_amended.2.2.1 _ "timeout" "timeout" "timeout" rfl rfl rfl⟩

/-! ## C2 — lazy analysis memoization -/

/-- C2 counterexample: the memoization test is Python truthiness
(`if not p.analysis`), and the initial analysis value is the empty string —
so a collaborator success that returns the *empty* string is persisted yet
leaves the record "unanalyzed", and the next run invokes the collaborator
again: across the two runs `[ok "", exception]` the collaborator is invoked
twice (the claim says at most once) and the second run's result is the
failure marker, not the first run's result. -/
theorem c2_counterexample :
    lazyAnalyzeRuns [QwenOutcome.ok "", QwenOutcome.exn]
        ⟨"AgACAgQAAx0", "data/logs/2026-02-10/photos/AgACAgQAAx0.jpg", "", "",
          "2026-02-10"⟩ =
      (⟨"AgACAgQAAx0", "data/logs/2026-02-10/photos/AgACAgQAAx0.jpg",
        "عذراً، حدث خطأ أثناء تحليل البيانات.", "", "2026-02-10"⟩, 2) := rfl

/-- C2 (amended): if the record's analysis field is already populated
(non-empty) the lazy-analysis step is a no-op returning it unchanged with
zero collaborator invocations; when it is unpopulated and the first
invocation's result is non-empty, that result is persisted and every later
run — whatever its collaborator would do, including erroring — returns it
unchanged with no further invocation (so the collaborator runs exactly
once); and both failure paths of `analyze_site_data` return non-empty
failure markers, so an *erroring* collaborator is still invoked at most
once.  (Only an empty-string success re-triggers the collaborator, as the
counterexample shows.) -/
theorem c2_memoized_analysis_amended :
    (∀ (p : PhotoRow) (responses : List QwenOutcome), p.analysis ≠ "" →
      lazyAnalyzeRuns responses p = (p, 0))
    ∧ (∀ (p : PhotoRow) (r1 : QwenOutcome) (rest : List QwenOutcome),
        p.analysis = "" → analyze_site_data r1 ≠ "" →
        lazyAnalyzeRuns (r1 :: rest) p =
          ({ p with analysis := analyze_site_data r1 }, 1))
    ∧ (∀ m : String, analyze_site_data (.apiError m) ≠ "" ∧
        analyze_site_data .exn ≠ "") := by
  refine ⟨?_, ?_, ?_⟩
  · intro p responses h
    exact lazyAnalyzeRuns_noop_aux p h responses 0
  · intro p r1 rest h0 h1
    simp only [lazyAnalyzeRuns, List.foldl_cons, lazyAnalyzePhoto, if_pos h0]
    exact lazyAnalyzeRuns_noop_aux _ h1 rest 1
  · intro m
    constructor
    · intro h
      have h2 : ("عذراً، حدث خطأ في النظام: " ++ m).data = ("" : String).data :=
        congrArg String.data h
      rw [String.data_append] at h2
      simp at h2
    · decide

/-- C2 witness: the amended theorem applied to a fresh record whose first
invocation errors (returning the non-empty failure marker) followed by a
second erroring run, and to an already-analyzed record. -/
theorem c2_memoized_analysis_witness :
    lazyAnalyzeRuns [QwenOutcome.exn, QwenOutcome.exn]
        ⟨"ph2", "data/ph2.jpg", "", "", "2026-02-10"⟩ =
      (⟨"ph2", "data/ph2.jpg", "عذراً، حدث خطأ أثناء تحليل البيانات.", "",
        "2026-02-10"⟩, 1) ∧
    lazyAnalyzeRuns [QwenOutcome.exn]
        ⟨"ph3", "data/ph3.jpg", "done", "", "2026-02-10"⟩ =
      (⟨"ph3", "data/ph3.jpg", "done", "", "2026-02-10"⟩, 0) :=
  ⟨c2_memoized_analysis_amended.2.1
      ⟨"ph2", "data/ph2.jpg", "", "", "2026-02-10"⟩ QwenOutcome.exn
      [QwenOutcome.exn] rfl (by decide),
   c2_memoized_analysis_amended.1
      ⟨"ph3", "data/ph3.jpg", "done", "", "2026-02-10"⟩ [QwenOutcome.exn]
      (by decide)⟩

/-! ## C6 — idempotent photo ingestion -/

/-- Inserting one photo row cannot push any id's row count above one. -/
theorem countId_insert_le (store : List PhotoRow) (p : PhotoRow)
    (uid : String) (h : countId store uid ≤ 1) :
    countId (insertPhotoMeta store p) uid ≤ 1 := by
  unfold insertPhotoMeta
  by_cases hdup : store.any (fun r => r.file_unique_id = p.file_unique_id) =
    true
  · simpa [hdup] using h
  · rw [if_neg hdup]
    rw [Bool.not_eq_true, List.any_eq_false] at hdup
    unfold countId at h ⊢
    rw [List.filter_append, List.length_append]
    by_cases hid : p.file_unique_id = uid
    · have hzero : store.filter (fun r => decide (r.file_unique_id = uid)) =
          [] := by
        rw [List.filter_eq_nil_iff]
        intro r hr hcontra
        rw [decide_eq_true_eq] at hcontra
        exact hdup r hr (by simp [hcontra, hid])
      simp [hzero, hid]
    · have hone : List.filter (fun r => decide (r.file_unique_id = uid)) [p] =
          [] := by
        simp [hid]
      rw [hone]
      simpa using h

/-- The per-id row-count invariant is preserved by any sequence of
`handle_photo` calls. -/
theorem runIngest_countId_le (events : List IngestEvent) :
    ∀ (store : List PhotoRow) (chat : List ChatLogRow),
      (∀ uid, countId store uid ≤ 1) →
      ∀ uid, countId (runIngest store chat events).1 uid ≤ 1 := by
  induction events with
  | nil => intro store chat h uid; exact h uid
  | cons ev rest ih =>
    intro store chat h uid
    have hstep : ∀ u, countId ((handle_photo store chat ev).1) u ≤ 1 :=
      fun u => countId_insert_le store _ u (h u)
    exact ih _ _ hstep uid

/-- Inserting a photo row makes (or keeps) its own id present. -/
theorem countId_insert_self_ge (store : List PhotoRow) (p : PhotoRow) :
    1 ≤ countId (insertPhotoMeta store p) p.file_unique_id := by
  unfold insertPhotoMeta countId
  by_cases hdup : store.any (fun r => r.file_unique_id = p.file_unique_id) =
    true
  · rw [if_pos hdup]
    rw [List.any_eq_true] at hdup
    obtain ⟨r, hr, hid⟩ := hdup
    rw [decide_eq_true_eq] at hid
    have hmem : r ∈ store.filter
        (fun r => decide (r.file_unique_id = p.file_unique_id)) :=
      List.mem_filter.mpr ⟨hr, by simp [hid]⟩
    exact List.length_pos_of_mem hmem
  · rw [if_neg hdup]
    rw [List.filter_append, List.length_append]
    have hp : List.filter
        (fun r => decide (r.file_unique_id = p.file_unique_id)) [p] = [p] := by
      simp
    rw [hp]
    simp

/-- An id already present in the store stays present after any insert. -/
theorem countId_insert_mono (store : List PhotoRow) (p : PhotoRow)
    (uid : String) (h : 1 ≤ countId store uid) :
    1 ≤ countId (insertPhotoMeta store p) uid := by
  unfold insertPhotoMeta
  by_cases hdup : store.any (fun r => r.file_unique_id = p.file_unique_id) =
    true
  · rw [if_pos hdup]
    exact h
  · rw [if_neg hdup]
    unfold countId at h ⊢
    rw [List.filter_append, List.length_append]
    omega

/-- After a sequence of `handle_photo` calls, every id that was in the
store or carried by one of the events is stored. -/
theorem runIngest_countId_ge (events : List IngestEvent) :
    ∀ (store : List PhotoRow) (chat : List ChatLogRow) (uid : String),
      (1 ≤ countId store uid ∨ ∃ ev ∈ events, ev.file_unique_id = uid) →
      1 ≤ countId (runIngest store chat events).1 uid := by
  induction events with
  | nil =>
    intro store chat uid h
    rcases h with h | ⟨ev, hev, _⟩
    · exact h
    · exact absurd hev (List.not_mem_nil ev)
  | cons ev rest ih =>
    intro store chat uid h
    show 1 ≤ countId (runIngest (handle_photo store chat ev).1
      (handle_photo store chat ev).2.1 rest).1 uid
    apply ih
    rcases h with h | ⟨e, he, heq⟩
    · left
      exact countId_insert_mono store _ uid h
    · rcases List.mem_cons.mp he with rfl | hrest
      · left
        have h1 : 1 ≤ countId (handle_photo store chat e).1 e.file_unique_id :=
          countId_insert_self_ge store _
        rw [heq] at h1
        exact h1
      · right
        exact ⟨e, hrest, heq⟩

/-- C6: ingesting a photo whose unique id already exists creates no
duplicate row and is a no-op rather than an error: starting from an empty
store, after any sequence of ingestions every unique id has at most one
stored `PhotoMetadata` row, and every id actually carried by an ingestion —
in particular one ingested twice — has *exactly one* stored row; when the
id is already present the photo store is returned unchanged while the
handler still replies with the normal success message (the `IntegrityError`
is caught and only logged). -/
theorem c6_idempotent_ingestion :
    (∀ (events : List IngestEvent) (uid : String),
      countId (runIngest [] [] events).1 uid ≤ 1)
    ∧ (∀ (events : List IngestEvent) (uid : String),
        (∃ ev ∈ events, ev.file_unique_id = uid) →
        countId (runIngest [] [] events).1 uid = 1)
    ∧ (∀ (store : List PhotoRow) (chat : List ChatLogRow) (ev : IngestEvent),
        store.any (fun r => r.file_unique_id = ev.file_unique_id) = true →
        (handle_photo store chat ev).1 = store ∧
        (handle_photo store chat ev).2.2 = "📸 Photo saved.") := by
  refine ⟨?_, ?_, ?_⟩
  · intro events uid
    exact runIngest_countId_le events [] []
      (fun u => by simp [countId]) uid
  · intro events uid hmem
    refine Nat.le_antisymm ?_ ?_
    · exact runIngest_countId_le events [] []
        (fun u => by simp [countId]) uid
    · exact runIngest_countId_ge events [] [] uid (Or.inr hmem)
  · intro store chat ev hdup
    constructor
    · simp [handle_photo, insertPhotoMeta, hdup]
    · rfl

/-- C6 witness: ingesting the same unique id twice from an empty store
yields exactly one stored row, and a repeated ingestion is a no-op that
still reports success. -/
theorem c6_idempotent_ingestion_witness :
    countId (runIngest [] []
      [⟨"u1", "ali", "AgACAgQ77", "data/a.jpg", none, "2026-02-10"⟩,
       ⟨"u1", "ali", "AgACAgQ77", "data/a.jpg", none, "2026-02-10"⟩]).1
      "AgACAgQ77" = 1 ∧
    (handle_photo [⟨"AgACAgQ77", "data/a.jpg", "", "", "2026-02-10"⟩] []
        ⟨"u1", "ali", "AgACAgQ77", "data/a.jpg", none, "2026-02-10"⟩).1 =
      [⟨"AgACAgQ77", "data/a.jpg", "", "", "2026-02-10"⟩] :=
  ⟨c6_idempotent_ingestion.2.1
      [⟨"u1", "ali", "AgACAgQ77", "data/a.jpg", none, "2026-02-10"⟩,
       ⟨"u1", "ali", "AgACAgQ77", "data/a.jpg", none, "2026-02-10"⟩]
      "AgACAgQ77"
      ⟨⟨"u1", "ali", "AgACAgQ77", "data/a.jpg", none, "2026-02-10"⟩,
        List.mem_cons_self _ _, rfl⟩,
   (c6_idempotent_ingestion.2.2 [⟨"AgACAgQ77", "data/a.jpg", "", "",
      "2026-02-10"⟩] []
      ⟨"u1", "ali", "AgACAgQ77", "data/a.jpg", none, "2026-02-10"⟩
      (by decide)).1⟩

/-! ## C4 — get_summary degradation and per-item skipping -/

/-- C4 counterexample: an item with *missing fields* is not skipped — the
`.get` defaults stand in for the absent keys and the item is still
classified; here a package with no id, no subject, no status and no due
date, but a parsable start date, lands in the incoming bucket (with empty
status) instead of being "skipped with a warning" as the claim states. -/
theorem c4_counterexample :
    processPackage ⟨none, none, none, some "2030-01-01", none⟩ =
      ItemOutcome.incoming ⟨none, none, "", none, some "2030-01-01"⟩ ∧
    get_summary (fun _ => .ok [⟨none, none, none, some "2030-01-01", none⟩]) =
      ⟨[], [⟨none, none, "", none, some "2030-01-01"⟩]⟩ := ⟨rfl, rfl⟩

/-- C4 (amended): `get_summary` never propagates an exception (in the
embedding it is a total function into `ProjectSummary`): when the underlying
work-package fetch fails after retries it returns the empty summary
`{active: [], incoming: []}`; an individual item whose processing raises —
e.g. one with an unparsable non-empty date string — is skipped with a
warning and leaves the summary of the remaining items unchanged.  (Items
with merely *missing* fields are not skipped: the `.get` defaults apply and
the item is still classified, as the counterexample shows.) -/
theorem c4_summary_degradation_amended :
    (∀ (bp : Nat → FetchOutcome (List RawPackage)) (e : PyErr),
      (get_work_packages bp).result = .error e → get_summary bp = ⟨[], []⟩)
    ∧ (∀ (pkg : RawPackage) (s : String), pkg.startDate = some s → s ≠ "" →
        strptimeYmd s = none → processPackage pkg = .skipped)
    ∧ (∀ (l1 l2 : List RawPackage) (pkg : RawPackage),
        processPackage pkg = .skipped →
        get_summary (fun _ => .ok (l1 ++ pkg :: l2)) =
          get_summary (fun _ => .ok (l1 ++ l2))) := by
  refine ⟨?_, ?_, ?_⟩
  · intro bp e h
    simp [get_summary, h]
  · intro pkg s hstart hs hp
    have hnone : parseOptDate pkg.startDate = none := by
      rw [hstart]
      simp [parseOptDate, hs, hp]
    simp [processPackage, hnone]
  · intro l1 l2 pkg h
    have hc : collectSummary (l1 ++ pkg :: l2) = collectSummary (l1 ++ l2) := by
      unfold collectSummary
      rw [List.foldl_append, List.foldl_append, List.foldl_cons]
      congr 1
      simp [h]
    show (⟨(collectSummary (l1 ++ pkg :: l2)).active,
        pySortByStartDate (collectSummary (l1 ++ pkg :: l2)).incoming⟩ :
          ProjectSummary) =
      ⟨(collectSummary (l1 ++ l2)).active,
        pySortByStartDate (collectSummary (l1 ++ l2)).incoming⟩
    rw [hc]

/-- C4 witness: the amended theorem applied to a fetch that fails after
retries, to an item with the unparsable date "not-a-date", and to a
two-item list whose middle item is skipped. -/
theorem c4_summary_degradation_witness :
    get_summary (fun _ => FetchOutcome.raiseClient "timeout") = ⟨[], []⟩ ∧
    processPackage ⟨some 7, some "Bad item", some "New", some "not-a-date",
      none⟩ = .skipped ∧
    get_summary (fun _ => .ok
      [⟨some 1, some "Tower", some "In Progress", none, none⟩,
       ⟨some 7, some "Bad item", some "New", some "not-a-date", none⟩]) =
      get_summary (fun _ => .ok
        [⟨some 1, some "Tower", some "In Progress", none, none⟩]) :=
  ⟨c4_summary_degradation_amended.1 _ (.retryError (.clientError "timeout"))
      rfl,
   c4_summary_degradation_amended.2.1 _ "not-a-date" rfl (by decide) rfl,
   by
    have h := c4_summary_degradation_amended.2.2
      [⟨some 1, some "Tower", some "In Progress", none, none⟩] []
      ⟨some 7, some "Bad item", some "New", some "not-a-date", none⟩
      (c4_summary_degradation_amended.2.1 _ "not-a-date" rfl (by decide) rfl)
    simpa using h⟩

/-! ## C9 — classification and the incoming-bucket sort -/

/-- The code-point order on char lists is asymmetric. -/
theorem lexLt_asymm : ∀ a b : List Char, lexLt a b = true → lexLt b a = false := by
  intro a
  induction a with
  | nil =>
    intro b h
    cases b with
    | nil => simp [lexLt] at h
    | cons c cs => simp [lexLt]
  | cons c cs ih =>
    intro b h
    cases b with
    | nil => simp [lexLt] at h
    | cons d ds =>
      simp only [lexLt, Bool.or_eq_true, Bool.and_eq_true,
        decide_eq_true_eq] at h
      simp only [lexLt, Bool.or_eq_false_iff, Bool.and_eq_false_iff]
      rcases h with h1 | ⟨h2, h3⟩
      · constructor
        · simp only [decide_eq_false_iff_not]
          omega
        · left
          simp only [decide_eq_false_iff_not]
          omega
      · constructor
        · simp only [decide_eq_false_iff_not]
          omega
        · right
          exact ih ds h3

/-- Inserting into a list that is ascending for the sort key keeps it
ascending. -/
theorem insertByKey_chain (x : SummaryItem) :
    ∀ l : List SummaryItem,
      List.Chain' (fun a b => lexLt (summarySortKey b) (summarySortKey a) =
        false) l →
      List.Chain' (fun a b => lexLt (summarySortKey b) (summarySortKey a) =
        false) (insertByKey x l) := by
  intro l
  induction l with
  | nil => intro _; simp [insertByKey]
  | cons y ys ih =>
    intro h
    simp only [insertByKey]
    by_cases hxy : lexLt (summarySortKey x) (summarySortKey y) = true
    · rw [if_pos hxy]
      exact List.Chain'.cons (lexLt_asymm _ _ hxy) h
    · rw [if_neg hxy]
      rw [Bool.not_eq_true] at hxy
      have htail := ih (List.Chain'.tail h)
      cases ys with
      | nil =>
        simp only [insertByKey]
        exact List.Chain'.cons hxy (List.chain'_singleton _)
      | cons z zs =>
        by_cases hxz : lexLt (summarySortKey x) (summarySortKey z) = true
        · simp only [insertByKey, if_pos hxz] at htail ⊢
          exact List.Chain'.cons hxy htail
        · simp only [insertByKey, if_neg hxz] at htail ⊢
          exact List.Chain'.cons (List.chain'_cons.mp h).1 htail

/-- The insertion fold underlying the Python sort preserves ascension. -/
theorem foldl_insertByKey_chain (l : List SummaryItem) :
    ∀ acc : List SummaryItem,
      List.Chain' (fun a b => lexLt (summarySortKey b) (summarySortKey a) =
        false) acc →
      List.Chain' (fun a b => lexLt (summarySortKey b) (summarySortKey a) =
        false) (l.foldl (fun acc x => insertByKey x acc) acc) := by
  induction l with
  | nil => intro acc h; exact h
  | cons x xs ih =>
    intro acc h
    exact ih _ (insertByKey_chain x acc h)

/-- The modelled Python sort produces a list ascending for its key. -/
theorem pySortByStartDate_chain (l : List SummaryItem) :
    List.Chain' (fun a b => lexLt (summarySortKey b) (summarySortKey a) =
      false) (pySortByStartDate l) :=
  foldl_insertByKey_chain l [] (by simp)

/-- C9 counterexample: Python's `strptime` accepts non-zero-padded month and
day fields, and `get_summary` sorts the incoming bucket by the raw date
*string*; two incoming items dated 2024-10-01 and 2024-2-1 therefore come
out with October before February — not ascending by start date as the claim
states. -/
theorem c9_counterexample :
    (get_summary (fun _ => .ok
      [⟨some 1, some "Facade", some "Scheduled", some "2024-10-01", none⟩,
       ⟨some 2, some "Piling", some "Scheduled", some "2024-2-1", none⟩])).incoming =
      [⟨some 1, some "Facade", "Scheduled", none, some "2024-10-01"⟩,
       ⟨some 2, some "Piling", "Scheduled", none, some "2024-2-1"⟩] ∧
    strptimeYmd "2024-10-01" = some (2024, 10, 1) ∧
    strptimeYmd "2024-2-1" = some (2024, 2, 1) ∧
    specSortedByDate
      [⟨some 1, some "Facade", "Scheduled", none, some "2024-10-01"⟩,
       ⟨some 2, some "Piling", "Scheduled", none, some "2024-2-1"⟩] = false := by
  refine ⟨rfl, rfl, rfl, ?_⟩
  decide

/-- C9 (amended): for every fetched work item whose per-item processing
succeeds (both date strings parse), classification is deterministic: a
status containing "in progress" (case-insensitive substring) is active; any
other status not in the closed set {closed, rejected, completed, on hold}
that also has a (parsed, truthy) start date is incoming; a status in the
closed set — whatever its start date — and a non-active item without a
start date land in neither bucket.  The incoming bucket is sorted ascending
by the raw start-date *string* (sentinel "9999-12-31" for a missing one) —
which is chronological only for zero-padded dates, as the counterexample
shows.  In particular "In Progress (rev)" is active and a "Closed" item
with a future start date lands in neither bucket. -/
theorem c9_classification_amended :
    (∀ (pkg : RawPackage) (sd dd : Option (Nat × Nat × Nat)),
      parseOptDate pkg.startDate = some sd →
      parseOptDate pkg.dueDate = some dd →
      containsSub ("in progress").data
        (pyLower (pyStrip (pkg.statusTitle.getD ""))).data = true →
      processPackage pkg = .active ⟨pkg.pkgId, pkg.subject,
        pyStrip (pkg.statusTitle.getD ""), pkg.dueDate, pkg.startDate⟩)
    ∧ (∀ (pkg : RawPackage) (sd dd : Option (Nat × Nat × Nat)),
        parseOptDate pkg.startDate = some sd →
        parseOptDate pkg.dueDate = some dd →
        containsSub ("in progress").data
          (pyLower (pyStrip (pkg.statusTitle.getD ""))).data = false →
        (["closed", "rejected", "completed", "on hold"].contains
          (pyLower (pyStrip (pkg.statusTitle.getD "")))) = false →
        sd.isSome = true →
        processPackage pkg = .incoming ⟨pkg.pkgId, pkg.subject,
          pyStrip (pkg.statusTitle.getD ""), pkg.dueDate, pkg.startDate⟩)
    ∧ (∀ (pkg : RawPackage) (sd dd : Option (Nat × Nat × Nat)),
        parseOptDate pkg.startDate = some sd →
        parseOptDate pkg.dueDate = some dd →
        containsSub ("in progress").data
          (pyLower (pyStrip (pkg.statusTitle.getD ""))).data = false →
        (["closed", "rejected", "completed", "on hold"].contains
          (pyLower (pyStrip (pkg.statusTitle.getD "")))) = true →
        processPackage pkg = .neither)
    ∧ (∀ (pkg : RawPackage) (dd : Option (Nat × Nat × Nat)),
        parseOptDate pkg.startDate = some none →
        parseOptDate pkg.dueDate = some dd →
        containsSub ("in progress").data
          (pyLower (pyStrip (pkg.statusTitle.getD ""))).data = false →
        processPackage pkg = .neither)
    ∧ (∀ bp : Nat → FetchOutcome (List RawPackage),
      List.Chain' (fun a b => lexLt (summarySortKey b) (summarySortKey a) =
        false) (get_summary bp).incoming)
    ∧ processPackage ⟨some 3, some "Core walls", some "In Progress (rev)",
        none, none⟩ =
      .active ⟨some 3, some "Core walls", "In Progress (rev)", none, none⟩
    ∧ processPackage ⟨some 4, some "Old task", some "Closed",
        some "2030-05-01", none⟩ = .neither := by
  refine ⟨?_, ?_, ?_, ?_, ?_, rfl, rfl⟩
  · intro pkg sd dd hs hd hc
    simp [processPackage, hs, hd, hc]
  · intro pkg sd dd hs hd hc hm hsome
    simp at hm
    simp [processPackage, hs, hd, hc, hm, hsome]
  · intro pkg sd dd hs hd hc hm
    simp at hm
    rcases hm with hm | hm | hm | hm <;>
      simp [processPackage, hs, hd, hc, hm] <;> decide
  · intro pkg dd hs hd hc
    by_cases hm : (["closed", "rejected", "completed", "on hold"].contains
        (pyLower (pyStrip (pkg.statusTitle.getD "")))) = true
    · simp at hm
      rcases hm with hm | hm | hm | hm <;>
        simp [processPackage, hs, hd, hc, hm] <;> decide
    · rw [Bool.not_eq_true] at hm
      simp at hm
      simp [processPackage, hs, hd, hc, hm]
  · intro bp
    rcases hres : (get_work_packages bp).result with e | packages
    · simp [get_summary, hres]
    · simp only [get_summary, hres]
      exact pySortByStartDate_chain _

/-- C9 witness: the amended theorem's universal classification rules applied
at concrete packages — an "In Progress (rev)" item (active), a "Scheduled"
item with start date 2030-01-01 (incoming), and a "Closed" item with a
future start date (neither). -/
theorem c9_classification_witness :
    processPackage ⟨some 3, some "Core walls", some "In Progress (rev)",
      none, none⟩ =
      .active ⟨some 3, some "Core walls", "In Progress (rev)", none, none⟩ ∧
    processPackage ⟨some 5, some "Lift shafts", some "Scheduled",
      some "2030-01-01", none⟩ =
      .incoming ⟨some 5, some "Lift shafts", "Scheduled", none,
        some "2030-01-01"⟩ ∧
    processPackage ⟨some 4, some "Old task", some "Closed",
      some "2030-05-01", none⟩ = .neither :=
  ⟨c9_classification_amended.1 ⟨some 3, some "Core walls",
      some "In Progress (rev)", none, none⟩ none none rfl rfl (by decide),
   c9_classification_amended.2.1 ⟨some 5, some "Lift shafts",
      some "Scheduled", some "2030-01-01", none⟩ (some (2030, 1, 1)) none
      rfl rfl (by decide) (by decide) rfl,
   c9_classification_amended.2.2.1 ⟨some 4, some "Old task", some "Closed",
      some "2030-05-01", none⟩ (some (2030, 5, 1)) none rfl rfl
      (by decide) (by decide)⟩

/-! ## C10 — report id format and fallback -/

/-- A char list of length 3 is an explicit triple. -/
theorem listLen3 {α : Type} {l : List α} (h : l.length = 3) :
    ∃ a b c, l = [a, b, c] := by
  rcases l with _ | ⟨a, _ | ⟨b, _ | ⟨c, _ | ⟨d, t⟩⟩⟩⟩
  · simp at h
  · simp at h
  · simp at h
  · exact ⟨a, b, c, rfl⟩
  · simp only [List.length_cons] at h
    omega

/-- A char list of length 2 is an explicit pair. -/
theorem listLen2 {α : Type} {l : List α} (h : l.length = 2) :
    ∃ a b, l = [a, b] := by
  rcases l with _ | ⟨a, _ | ⟨b, _ | ⟨c, t⟩⟩⟩
  · simp at h
  · simp at h
  · exact ⟨a, b, rfl⟩
  · simp only [List.length_cons] at h
    omega

set_option maxRecDepth 8000 in
/-- For counters up to 999, `%03d` renders exactly three decimal digits. -/
theorem pad3_shape : ∀ n : Nat, n < 1000 →
    (pad3 n).data.length = 3 ∧ (pad3 n).data.all Char.isDigit = true := by
  decide

/-- For months 1..12 the uppercased `%b` abbreviation is one of the twelve
and has three characters. -/
theorem monthAbbrev_upper_shape : ∀ m : Nat, m < 13 → 1 ≤ m →
    monthAbbrevsUpper.contains (pyUpper (monthAbbrev m)) = true ∧
    (pyUpper (monthAbbrev m)).data.length = 3 := by
  decide

/-- A string of shape `BN-` + abbreviation + `-` + two digits + `-` + three
digits satisfies the claimed format. -/
theorem specReportIdFormat_build (a1 a2 a3 y1 y2 d1 d2 d3 : Char)
    (hmem : monthAbbrevsUpper.contains (String.mk [a1, a2, a3]) = true)
    (hy1 : y1.isDigit = true) (hy2 : y2.isDigit = true)
    (hd1 : d1.isDigit = true) (hd2 : d2.isDigit = true)
    (hd3 : d3.isDigit = true) :
    specReportIdFormat (String.mk ['B', 'N', '-', a1, a2, a3, '-', y1, y2,
      '-', d1, d2, d3]) = true := by
  show ((((((true && true)
      && monthAbbrevsUpper.contains (String.mk [a1, a2, a3]))
      && true) && (y1.isDigit && (y2.isDigit && true))) && true)
      && (d1.isDigit && (d2.isDigit && (d3.isDigit && true)))) = true
  rw [hmem, hy1, hy2, hd1, hd2, hd3]
  rfl

/-- C10 counterexample: the counter is *not* always rendered as three
digits — `%03d` pads to a minimum width only, so the 1000th report of a
month gets a four-digit counter field and the id no longer has the claimed
`BN-MMM-YY-NNN` shape. -/
theorem c10_counterexample :
    (generate_report_id ⟨2, "26", "2026-02", 1770000000⟩ [("2026-02", 999)]
      true).1 = "BN-FEB-26-1000" ∧
    specReportIdFormat "BN-FEB-26-1000" = false := by
  constructor
  · rfl
  · decide

/-- C10 (amended): `generate_report_id` is total over storage failures (in
the embedding it returns a string in both branches); on success with a
counter value of at most 999 the id has the form
`BN-<uppercase month abbreviation>-<two-digit year>-<three-digit zero-padded
counter>` (counters above 999 render with more digits, as the counterexample
shows — the pad is a minimum width); on a database error it returns the
fallback `BN-ERR-<unix timestamp>`, which never satisfies the
`BN-MMM-YY-NNN` format. -/
theorem c10_report_id_amended :
    (∀ (now : NowInfo) (db : List (String × Nat)),
      1 ≤ now.month → now.month ≤ 12 →
      now.yearStr.data.length = 2 →
      now.yearStr.data.all Char.isDigit = true →
      (((db.find? (fun row => row.1 = now.monthKey)).map Prod.snd).getD 0) + 1
        ≤ 999 →
      specReportIdFormat (generate_report_id now db true).1 = true)
    ∧ (∀ (now : NowInfo) (db : List (String × Nat)),
        (generate_report_id now db false).1 =
          "BN-ERR-" ++ toString now.timestamp ∧
        specReportIdFormat (generate_report_id now db false).1 = false) := by
  constructor
  · intro now db h1 h2 hylen hydig hcount
    have h13 : now.month < 13 := by omega
    obtain ⟨a1, a2, a3, hA⟩ :=
      listLen3 (monthAbbrev_upper_shape now.month h13 h1).2
    obtain ⟨y1, y2, hY⟩ := listLen2 hylen
    obtain ⟨d1, d2, d3, hD⟩ := listLen3 (pad3_shape
      ((((db.find? (fun row => row.1 = now.monthKey)).map Prod.snd).getD 0)
        + 1) (by omega)).1
    have hdigD := (pad3_shape
      ((((db.find? (fun row => row.1 = now.monthKey)).map Prod.snd).getD 0)
        + 1) (by omega)).2
    rw [hD] at hdigD
    simp only [List.all_cons, List.all_nil, Bool.and_eq_true,
      Bool.and_true] at hdigD
    rw [hY] at hydig
    simp only [List.all_cons, List.all_nil, Bool.and_eq_true,
      Bool.and_true] at hydig
    have hmk : pyUpper (monthAbbrev now.month) = String.mk [a1, a2, a3] := by
      rw [← hA]
    have hmem := (monthAbbrev_upper_shape now.month h13 h1).1
    rw [hmk] at hmem
    have hstr : (generate_report_id now db true).1 =
        String.mk ['B', 'N', '-', a1, a2, a3, '-', y1, y2, '-',
          d1, d2, d3] := by
      calc (generate_report_id now db true).1
          = String.mk (generate_report_id now db true).1.data := rfl
        _ = String.mk ['B', 'N', '-', a1, a2, a3, '-', y1, y2, '-',
            d1, d2, d3] := by
          congr 1
          show ("BN-" ++ pyUpper (monthAbbrev now.month) ++ "-" ++ now.yearStr
            ++ "-" ++ pad3 ((((db.find?
              (fun row => row.1 = now.monthKey)).map Prod.snd).getD 0)
                + 1)).data = _
          rw [hmk]
          simp only [String.data_append, hY, hD]
          rfl
    rw [hstr]
    exact specReportIdFormat_build a1 a2 a3 y1 y2 d1 d2 d3 hmem hydig.1
      hydig.2 hdigD.1 hdigD.2.1 hdigD.2.2
  · intro now db
    refine ⟨rfl, ?_⟩
    have hgen : (generate_report_id now db false).1 =
        "BN-ERR-" ++ toString now.timestamp := rfl
    have hdrop : ((("BN-ERR-" ++ toString now.timestamp).data.drop 3).take 3)
        = ['E', 'R', 'R'] := by
      rw [String.data_append]
      rfl
    have hcontains : monthAbbrevsUpper.contains
        (String.mk ((("BN-ERR-" ++ toString now.timestamp).data.drop 3).take
          3)) = false := by
      rw [hdrop]
      decide
    unfold specReportIdFormat
    rw [hgen, hcontains]
    simp

/-- C10 witness: the amended theorem applied to February 2026 with an empty
counter table (counter 1) and to a failing database session. -/
theorem c10_report_id_witness :
    specReportIdFormat (generate_report_id ⟨2, "26", "2026-02", 1770000000⟩
      [] true).1 = true ∧
    (generate_report_id ⟨2, "26", "2026-02", 1770000000⟩ [] false).1 =
      "BN-ERR-" ++ toString (1770000000 : Int) ∧
    specReportIdFormat (generate_report_id ⟨2, "26", "2026-02", 1770000000⟩
      [] false).1 = false :=
  ⟨c10_report_id_amended.1 ⟨2, "26", "2026-02", 1770000000⟩ []
      (by decide) (by decide) (by decide) (by decide) (by decide),
   (c10_report_id_amended.2 ⟨2, "26", "2026-02", 1770000000⟩ []).1,
   (c10_report_id_amended.2 ⟨2, "26", "2026-02", 1770000000⟩ []).2⟩
